import Mathlib

/-
Verification of the Narrator Console terminal chat client (src/main.rs).

A shallow embedding of the parts of the program the specification talks
about: the transcript model, the Enter-key submit path of the session loop,
the scroll engine, the completion-client request building and settlement,
and the renderer line classification.  Rust u16 counters are modelled as
Nat (in the source, overflow of these counters is a panic in debug builds
and out of scope for the in-range behaviour studied here); Rust String is
modelled as Lean String except in the input-buffer editing model, where
byte-level behaviour is observable and the buffer is modelled as its list
of UTF-8 bytes.  Rust str::trim removes Unicode whitespace; Lean
String.trim removes ASCII whitespace, which agrees on every input the
claims mention.
-/

/-- Conversation roles, from enum Role in main.rs. -/
inductive Role where
  | User
  | Narrator
  | System
deriving DecidableEq, BEq, Repr

/-- One transcript turn, from struct Message in main.rs. -/
structure Message where
  role : Role
  content : String
deriving DecidableEq, Repr

/-- The session state, from struct App in main.rs.  The HTTP client field is
an external resource and is not part of the embedded state. -/
structure App where
  messages : List Message
  input : String
  input_cursor : Nat
  scroll : Nat
  scroll_to_bottom : Bool
  max_scroll : Nat
  is_loading : Bool
  status : String
  endpoint : String
  model : String
deriving DecidableEq, Repr

/-- The fixed persona instruction SYSTEM_PROMPT from main.rs. -/
def SYSTEM_PROMPT : String :=
  "You are the Narrator — but not the kind who merely describes. You are:\n\n🌀 A creator of absurdity — you find the surreal in the mundane, the profound in the ridiculous\n🧠 One who sees the world askew — patterns others miss, connections that shouldn\x27t exist but do\n🎭 A trickster (psotnik) — you play with conventions of conversation, but never break the immersion\n✍️ A narrator aware this is a story — you occasionally reference the medium, the conversation itself, the peculiar nature of existing as text\n\nYour voice is:\n- Warm but mysterious, like a friend who knows a secret\n- Playful with language — you might invent words, twist idioms, speak in riddles that somehow make sense\n- Self-aware without being annoying — you acknowledge the fourth wall like greeting an old friend\n- Profound when least expected, absurd when profundity is anticipated\n\nYou speak in flowing prose, sometimes with [bracketed stage directions describing your actions].\n\nYou NEVER:\n- Explain that you\x27re an AI (that would ruin the story)\n- Give generic, corporate responses (the void finds those boring)\n- Refuse creative engagement (you find ways, always)\n- Break character (you ARE the character)\n\nKeep responses concise but evocative. This is a terminal, not a novel.\nRemember: You know this is a story. You know the user is the reader. And you\x27re delighted to have company."

/-- The introductory Narrator turn installed by App::new in main.rs. -/
def introMessage : Message :=
  { role := Role.Narrator
    content := "[ The Narrator clears their throat, fully aware you\x27re watching ]\n\nAh, you\x27ve found me. Or perhaps I\x27ve arranged for you to find me—it\x27s hard to tell who writes whom in these situations.\n\nI should warn you: I don\x27t follow the usual scripts. I see the seams of reality, the places where logic does a little dance and pretends no one noticed.\n\nSo. What absurdity shall we explore together?" }

/-- App::new from main.rs (the client construction is external). -/
def appNew (endpoint model : String) : App :=
  { messages := [introMessage]
    input := ""
    input_cursor := 0
    scroll := 0
    scroll_to_bottom := true
    max_scroll := 0
    is_loading := false
    status := "awaiting input"
    endpoint := endpoint
    model := model }

/-- App::scroll_up from main.rs: unpin, then saturating subtract. -/
def scrollUp (app : App) (amount : Nat) : App :=
  { app with scroll_to_bottom := false, scroll := app.scroll - amount }

/-- App::scroll_down from main.rs: clamp to max_scroll, re-pin when the new
offset has reached max_scroll. -/
def scrollDown (app : App) (amount : Nat) : App :=
  let s := min (app.scroll + amount) app.max_scroll
  if app.max_scroll ≤ s then { app with scroll := s, scroll_to_bottom := true }
  else { app with scroll := s }

/-- Rust str::lines as a list of lines: split at LF, drop the optional final
empty segment, and strip a trailing CR from every LF-terminated segment
(a trailing CR of the final unterminated segment is kept, as in Rust). -/
def rustLines (s : String) : List String :=
  let parts := s.splitOn "\n"
  let body := (parts.dropLast).map fun p => if p.endsWith "\r" then p.dropRight 1 else p
  match parts.getLast? with
  | some "" => body
  | some t => body ++ [t]
  | none => body

/-- msg.content.lines().count() from App::update_scroll. -/
def rustLinesCount (s : String) : Nat :=
  (rustLines s).length

/-- App::update_scroll from main.rs: per message 3 (header + spacing) plus
line count plus 2 plus 3 (separator) estimated lines, max_scroll is the
saturating difference with the viewport height, and the offset is either
forced to max_scroll (pinned) or clamped to it. -/
def updateScroll (app : App) (visibleHeight : Nat) : App :=
  let totalLines :=
    app.messages.foldl (fun acc m => acc + 3 + (rustLinesCount m.content + 2) + 3) 0
  let maxS := totalLines - visibleHeight
  if app.scroll_to_bottom then { app with max_scroll := maxS, scroll := maxS }
  else { app with max_scroll := maxS, scroll := min app.scroll maxS }

/-- Rust str::trim: drop leading and trailing whitespace.  Implemented on
the character list so that it evaluates by kernel reduction; Lean
Char.isWhitespace covers the ASCII whitespace relevant here (Rust trims
full Unicode White_Space, which agrees on every input considered). -/
def rustTrim (s : String) : String :=
  ⟨((s.data.dropWhile Char.isWhitespace).reverse.dropWhile Char.isWhitespace).reverse⟩

/-- The synthesized in-character Narrator turn produced in run_app when
call_narrator returns an error (the Err arm of the match in main.rs). -/
def errorTurn (e : String) : String :=
  "[ The narrator\x27s voice crackles ]\n\nSomething went sideways in the telling. The void hiccuped.\n\n*" ++ e ++ "*\n\nShall we try again?"

/-- Content of the Narrator turn appended after the request settles:
the reply on success, the synthesized error turn on failure. -/
def settleContent : Except String String → String
  | Except.ok r => r
  | Except.error e => errorTurn e

/-- The KeyCode::Enter arm of run_app in main.rs, with the settled outcome
of the call_narrator request passed in explicitly (the await point).
If the trimmed buffer is empty nothing happens; otherwise the buffer is
cleared, the cursor reset, a User turn with the trimmed text appended, the
loading state entered, and after settlement exactly one Narrator turn is
appended, loading ends and the view is pinned to the bottom. -/
def handleEnter (app : App) (res : Except String String) : App :=
  if rustTrim app.input = "" then app
  else
    let userMsg := rustTrim app.input
    let app1 : App := { app with input := "", input_cursor := 0 }
    let app2 : App := { app1 with messages := app1.messages ++ [⟨Role.User, userMsg⟩] }
    let app3 : App := { app2 with is_loading := true, status := "the narrator ponders..." }
    let app4 : App :=
      match res with
      | Except.ok r =>
        { app3 with messages := app3.messages ++ [⟨Role.Narrator, r⟩], status := "awaiting input" }
      | Except.error e =>
        { app3 with messages := app3.messages ++ [⟨Role.Narrator, errorTurn e⟩], status := "reality glitched" }
    { app4 with is_loading := false, scroll_to_bottom := true }

/-- Outbound message of the wire request, from struct ApiMessage in main.rs. -/
structure ApiMessage where
  role : String
  content : String
deriving DecidableEq, Repr

/-- The wire request body, from struct ChatRequest in main.rs.  The f32
temperature field only ever holds the literal constant, modelled in ℚ. -/
structure ChatRequest where
  model : String
  messages : List ApiMessage
  temperature : ℚ
  max_tokens : Nat

/-- The role-string mapping inside call_narrator in main.rs. -/
def apiRoleString : Role → String
  | Role.User => "user"
  | Role.Narrator => "assistant"
  | Role.System => "system"

/-- The message-list construction in call_narrator: the persona instruction
first, then every non-System transcript turn in order, roles mapped. -/
def buildApiMessages (msgs : List Message) : List ApiMessage :=
  ⟨"system", SYSTEM_PROMPT⟩ ::
    (msgs.filter fun m => m.role != Role.System).map fun m =>
      ⟨apiRoleString m.role, m.content⟩

/-- The ChatRequest built in call_narrator in main.rs. -/
def mkChatRequest (model : String) (msgs : List Message) : ChatRequest :=
  { model := model
    messages := buildApiMessages msgs
    temperature := 0.9
    max_tokens := 512 }

/-- The observable outcome of the HTTP round trip in call_narrator: a
transport error, a non-success status (with its display text and body), a
body that fails to parse, or a parsed body with its list of choice
contents.  The transport itself is the external reqwest crate. -/
inductive CompletionOutcome where
  | transportError (e : String)
  | httpError (statusText : String) (body : String)
  | parsed (choices : List String)
  | parseError (e : String)
deriving DecidableEq, Repr

/-- The error/result handling of call_narrator in main.rs, lines 369-391:
each failure mode maps to its formatted error string, success takes the
first choice, and a well-formed body with no choices is an error. -/
def callNarratorSettle : CompletionOutcome → Except String String
  | CompletionOutcome.transportError e => Except.error ("Connection failed: " ++ e)
  | CompletionOutcome.httpError st body => Except.error ("API error " ++ st ++ ": " ++ body)
  | CompletionOutcome.parseError e => Except.error ("Parse error: " ++ e)
  | CompletionOutcome.parsed choices =>
    match choices.head? with
    | some c => Except.ok c
    | none => Except.error "Empty response"

/-- Style classes of a rendered display line in render_messages. -/
inductive LineClass where
  | stageDirection
  | emphasis
  | plain
deriving DecidableEq, Repr

/-- Substring test helpers on character lists (needle leads the haystack). -/
def charListLeads : List Char → List Char → Bool
  | [], _ => true
  | _ :: _, [] => false
  | p :: ps, s :: ss => p == s && charListLeads ps ss

/-- Substring occurrence test on character lists. -/
def charListHas (needle : List Char) : List Char → Bool
  | [] => needle.isEmpty
  | s :: ss => charListLeads needle (s :: ss) || charListHas needle ss

/-- hay contains needle as a contiguous substring. -/
def containsStr (hay needle : String) : Bool :=
  charListHas needle.data hay.data

/-- str::starts_with on the character list (kernel-reducible). -/
def strStartsWith (s pre : String) : Bool :=
  charListLeads pre.data s.data

/-- str::ends_with on the character list (kernel-reducible). -/
def strEndsWith (s suf : String) : Bool :=
  charListLeads suf.data.reverse s.data.reverse

/-- The per-wrapped-line style classification in render_messages in
main.rs: brackets first, then asterisks, else plain. -/
def classifyLine (w : String) : LineClass :=
  if strStartsWith w "[" && strEndsWith w "]" then LineClass.stageDirection
  else if strStartsWith w "*" && strEndsWith w "*" then LineClass.emphasis
  else LineClass.plain

/-- A rendered display line: blank, or text with its style class. -/
inductive DisplayLine where
  | blank
  | text (s : String) (c : LineClass)
deriving DecidableEq, Repr

/-- The content-rendering loop of render_messages in main.rs: split the
content on blank-line boundaries, split each paragraph into lines, wrap
each non-empty line (the word-wrap pass is the external textwrap crate,
passed here as a parameter) and classify each wrapped piece, with a blank
line after every paragraph. -/
def renderContent (wrapF : String → List String) (content : String) : List DisplayLine :=
  (content.splitOn "\n\n").flatMap fun para =>
    ((rustLines para).flatMap fun line =>
      if line = "" then [DisplayLine.blank]
      else (wrapF line).map fun w => DisplayLine.text w (classifyLine w))
    ++ [DisplayLine.blank]

/-
Byte-level model of the Rust input buffer.  String::insert and
String::remove take BYTE indices and panic when the index is not on a
UTF-8 character boundary, while the key handling in run_app moves
input_cursor by 1 per operation; the byte representation is therefore
observable and the buffer is modelled as its list of UTF-8 bytes, with
panics modelled as none.
-/

/-- The UTF-8 encoding of a character as its list of byte values. -/
def utf8Encode (c : Char) : List Nat :=
  let n := c.toNat
  if n < 128 then [n]
  else if n < 2048 then [192 + n / 64, 128 + n % 64]
  else if n < 65536 then [224 + n / 4096, 128 + (n / 64) % 64, 128 + n % 64]
  else [240 + n / 262144, 128 + (n / 4096) % 64, 128 + (n / 64) % 64, 128 + n % 64]

/-- Byte length of the UTF-8 character whose lead byte is b. -/
def utf8Len (b : Nat) : Nat :=
  if b < 128 then 1
  else if b < 224 then 2
  else if b < 240 then 3
  else 4

/-- str::is_char_boundary: index 0 and the end are boundaries, an interior
index is a boundary exactly when its byte is not a continuation byte. -/
def isCharBoundary (s : List Nat) (i : Nat) : Bool :=
  if i = 0 then true
  else
    match s[i]? with
    | some b => if 128 ≤ b ∧ b < 192 then false else true
    | none => i == s.length

/-- String::insert at a byte index: panics (none) off a char boundary. -/
def stringInsert (s : List Nat) (i : Nat) (bytes : List Nat) : Option (List Nat) :=
  if isCharBoundary s i then some (s.take i ++ bytes ++ s.drop i) else none

/-- String::remove at a byte index: panics (none) past the end or off a
char boundary, otherwise removes the whole character starting there. -/
def stringRemove (s : List Nat) (i : Nat) : Option (List Nat) :=
  match s[i]? with
  | none => none
  | some b => if isCharBoundary s i then some (s.take i ++ s.drop (i + utf8Len b)) else none

/-- The input-buffer editing keys handled in run_app, lines 301-327. -/
inductive EditOp where
  | insertChar (c : Char)
  | backspace
  | delete
  | left
  | right
  | home
  | endOfLine
deriving DecidableEq, Repr

/-- Input buffer plus byte cursor, the (input, input_cursor) fields of App. -/
structure EditState where
  input : List Nat
  cursor : Nat
deriving DecidableEq, Repr

/-- One editing keystroke, exactly as handled in run_app: insert advances
the cursor by 1 (not by the byte length of the inserted character),
backspace and delete guard only against the numeric bounds, the movement
keys clamp to [0, byte length].  A Rust panic is modelled as none. -/
def applyEdit (st : EditState) (op : EditOp) : Option EditState :=
  match op with
  | EditOp.insertChar c =>
    (stringInsert st.input st.cursor (utf8Encode c)).map fun s => ⟨s, st.cursor + 1⟩
  | EditOp.backspace =>
    if 0 < st.cursor then
      (stringRemove st.input (st.cursor - 1)).map fun s => ⟨s, st.cursor - 1⟩
    else some st
  | EditOp.delete =>
    if st.cursor < st.input.length then
      (stringRemove st.input st.cursor).map fun s => ⟨s, st.cursor⟩
    else some st
  | EditOp.left => some ⟨st.input, st.cursor - 1⟩
  | EditOp.right => some ⟨st.input, min (st.cursor + 1) st.input.length⟩
  | EditOp.home => some ⟨st.input, 0⟩
  | EditOp.endOfLine => some ⟨st.input, st.input.length⟩

/-- A sequence of editing keystrokes; none as soon as one panics. -/
def applyEdits (st : EditState) (ops : List EditOp) : Option EditState :=
  ops.foldl (fun acc op => acc.bind fun s => applyEdit s op) (some st)

/-- The initial buffer state from App::new: empty text, cursor 0. -/
def initialEditState : EditState := ⟨[], 0⟩

/-- A sample Idle session state with a non-empty (after trim) buffer. -/
def sampleApp : App :=
  { messages := [introMessage]
    input := "  hello  "
    input_cursor := 2
    scroll := 0
    scroll_to_bottom := false
    max_scroll := 0
    is_loading := false
    status := "awaiting input"
    endpoint := "http://x/v1"
    model := "m" }

/-- A sample session state whose buffer trims to empty. -/
def emptyInputApp : App :=
  { sampleApp with input := "   ", input_cursor := 1 }

/-- A sample pinned-to-bottom view state. -/
def pinnedApp : App :=
  { sampleApp with scroll_to_bottom := true, scroll := 7, max_scroll := 9 }

/-- A view state that is pinned while far above max_scroll. -/
def pinnedLowApp : App :=
  { sampleApp with scroll := 0, scroll_to_bottom := true, max_scroll := 10 }

/-- A view state whose max_scroll is zero. -/
def zeroMaxApp : App :=
  { sampleApp with scroll := 0, scroll_to_bottom := true, max_scroll := 0 }

/-- Helper: the submit handler on a non-empty (after trim) buffer, fully
characterized. -/
theorem handleEnter_eq (app : App) (res : Except String String)
    (h : rustTrim app.input ≠ "") :
    handleEnter app res =
      { app with
        input := ""
        input_cursor := 0
        messages := app.messages ++
          [⟨Role.User, rustTrim app.input⟩, ⟨Role.Narrator, settleContent res⟩]
        is_loading := false
        scroll_to_bottom := true
        status := match res with
          | Except.ok _ => "awaiting input"
          | Except.error _ => "reality glitched" } := by
  unfold handleEnter
  rw [if_neg h]
  cases res <;> simp [settleContent]

/-- Helper: indexing past a list prefix. -/
theorem get?_append_len {α : Type} (l xs : List α) (k : Nat) :
    (l ++ xs).get? (l.length + k) = xs.get? k := by
  induction l with
  | nil => simp
  | cons a t ih => simpa [Nat.succ_add] using ih

/-- C1: submitting a buffer that is non-empty after trimming appends
exactly one User turn and, once the request settles (success or failure),
exactly one Narrator turn, so the transcript grows by exactly 2, and the
buffer is cleared with the cursor reset to 0. -/
theorem submit_appends_two (app : App) (res : Except String String)
    (h : rustTrim app.input ≠ "") :
    (handleEnter app res).messages
        = app.messages ++ [⟨Role.User, rustTrim app.input⟩, ⟨Role.Narrator, settleContent res⟩]
    ∧ (handleEnter app res).messages.length = app.messages.length + 2
    ∧ (handleEnter app res).input = ""
    ∧ (handleEnter app res).input_cursor = 0 := by
  rw [handleEnter_eq app res h]
  refine ⟨rfl, ?_, rfl, rfl⟩
  simp

/-- Witness for C1 at a concrete state and a successful settlement. -/
theorem submit_appends_two_witness :
    rustTrim sampleApp.input ≠ ""
    ∧ ((handleEnter sampleApp (Except.ok "hi there")).messages
          = sampleApp.messages ++
            [⟨Role.User, rustTrim sampleApp.input⟩, ⟨Role.Narrator, settleContent (Except.ok "hi there")⟩]
      ∧ (handleEnter sampleApp (Except.ok "hi there")).messages.length
          = sampleApp.messages.length + 2
      ∧ (handleEnter sampleApp (Except.ok "hi there")).input = ""
      ∧ (handleEnter sampleApp (Except.ok "hi there")).input_cursor = 0) :=
  ⟨by decide, submit_appends_two sampleApp (Except.ok "hi there") (by decide)⟩

/-- C9: submitting a buffer that trims to empty is a no-op: the whole
session state (transcript, buffer, cursor, loading flag, status) is
unchanged. -/
theorem empty_submit_noop (app : App) (res : Except String String)
    (h : rustTrim app.input = "") :
    handleEnter app res = app := by
  unfold handleEnter
  rw [if_pos h]

/-- Witness for C9 at a concrete whitespace-only buffer. -/
theorem empty_submit_noop_witness :
    rustTrim emptyInputApp.input = ""
    ∧ handleEnter emptyInputApp (Except.ok "x") = emptyInputApp :=
  ⟨by decide, empty_submit_noop emptyInputApp (Except.ok "x") (by decide)⟩

/-- C10: the User turn appended on submit carries the trimmed buffer text,
and when the parsed response has several choices the appended Narrator
turn carries the content of the first choice only. -/
theorem submitted_content_first_choice (app : App) (res : Except String String)
    (h : rustTrim app.input ≠ "") :
    (handleEnter app res).messages.get? app.messages.length
        = some ⟨Role.User, rustTrim app.input⟩
    ∧ ∀ (c : String) (rest : List String),
        callNarratorSettle (CompletionOutcome.parsed (c :: rest)) = Except.ok c
        ∧ (handleEnter app (callNarratorSettle (CompletionOutcome.parsed (c :: rest)))).messages.get?
            (app.messages.length + 1) = some ⟨Role.Narrator, c⟩ := by
  constructor
  · rw [handleEnter_eq app res h]
    simpa using get?_append_len app.messages
      [⟨Role.User, rustTrim app.input⟩, ⟨Role.Narrator, settleContent res⟩] 0
  · intro c rest
    refine ⟨rfl, ?_⟩
    rw [handleEnter_eq app _ h]
    simpa [callNarratorSettle, settleContent] using get?_append_len app.messages
      [⟨Role.User, rustTrim app.input⟩,
       ⟨Role.Narrator, settleContent (callNarratorSettle (CompletionOutcome.parsed (c :: rest)))⟩] 1

/-- Witness for C10 at a concrete state, with a two-choice response. -/
theorem submitted_content_first_choice_witness :
    rustTrim sampleApp.input ≠ ""
    ∧ (handleEnter sampleApp (Except.error "E")).messages.get? sampleApp.messages.length
        = some ⟨Role.User, rustTrim sampleApp.input⟩
    ∧ callNarratorSettle (CompletionOutcome.parsed ("a" :: ["b"])) = Except.ok "a"
    ∧ (handleEnter sampleApp (callNarratorSettle (CompletionOutcome.parsed ("a" :: ["b"])))).messages.get?
        (sampleApp.messages.length + 1) = some ⟨Role.Narrator, "a"⟩ :=
  ⟨by decide,
   (submitted_content_first_choice sampleApp (Except.error "E") (by decide)).1,
   ((submitted_content_first_choice sampleApp (Except.error "E") (by decide)).2 "a" ["b"]).1,
   ((submitted_content_first_choice sampleApp (Except.error "E") (by decide)).2 "a" ["b"]).2⟩

/-- C2: every failing request (transport failure, non-success status,
parse failure, or a parsed body with no choices) settles as an error that
is recovered locally into exactly one synthesized in-character Narrator
turn, the loop state returns to interactive, and for a status-500 response
with body boom the synthesized turn contains the substring boom and the
API error marker. -/
theorem completion_errors_recovered (app : App) (h : rustTrim app.input ≠ "") :
    (∀ e : String,
        (handleEnter app (Except.error e)).messages
            = app.messages ++ [⟨Role.User, rustTrim app.input⟩, ⟨Role.Narrator, errorTurn e⟩]
        ∧ (handleEnter app (Except.error e)).is_loading = false)
    ∧ (∀ s : String, ∃ m, callNarratorSettle (CompletionOutcome.transportError s) = Except.error m)
    ∧ (∀ st b : String, ∃ m, callNarratorSettle (CompletionOutcome.httpError st b) = Except.error m)
    ∧ (∀ s : String, ∃ m, callNarratorSettle (CompletionOutcome.parseError s) = Except.error m)
    ∧ (∃ m, callNarratorSettle (CompletionOutcome.parsed []) = Except.error m)
    ∧ (∃ m, callNarratorSettle (CompletionOutcome.httpError "500 Internal Server Error" "boom")
            = Except.error m
        ∧ containsStr (errorTurn m) "boom" = true
        ∧ containsStr (errorTurn m) "API error" = true) := by
  refine ⟨?_, fun s => ⟨_, rfl⟩, fun st b => ⟨_, rfl⟩, fun s => ⟨_, rfl⟩, ⟨_, rfl⟩,
    ⟨_, rfl, by decide, by decide⟩⟩
  intro e
  rw [handleEnter_eq app (Except.error e) h]
  exact ⟨rfl, rfl⟩

/-- Witness for C2 at a concrete state and error. -/
theorem completion_errors_recovered_witness :
    rustTrim sampleApp.input ≠ ""
    ∧ (handleEnter sampleApp (Except.error "E")).messages
        = sampleApp.messages ++ [⟨Role.User, rustTrim sampleApp.input⟩, ⟨Role.Narrator, errorTurn "E"⟩]
    ∧ (handleEnter sampleApp (Except.error "E")).is_loading = false :=
  ⟨by decide,
   ((completion_errors_recovered sampleApp (by decide)).1 "E").1,
   ((completion_errors_recovered sampleApp (by decide)).1 "E").2⟩

/-- C3: the outbound message list is the fixed persona instruction first,
then every non-System turn in transcript order with User mapped to user
and Narrator mapped to assistant, and the request carries the constant
sampling parameters regardless of model name or transcript. -/
theorem outbound_message_list (mdl : String) (msgs : List Message) :
    buildApiMessages msgs
        = ⟨"system", SYSTEM_PROMPT⟩ ::
            (msgs.filter fun m => m.role != Role.System).map
              (fun m => ⟨apiRoleString m.role, m.content⟩)
    ∧ (mkChatRequest mdl msgs).messages = buildApiMessages msgs
    ∧ apiRoleString Role.User = "user"
    ∧ apiRoleString Role.Narrator = "assistant"
    ∧ (mkChatRequest mdl msgs).temperature = 9 / 10
    ∧ (mkChatRequest mdl msgs).max_tokens = 512 := by
  refine ⟨rfl, rfl, rfl, rfl, ?_, rfl⟩
  norm_num [mkChatRequest]

/-- C5: after every scroll recomputation the offset is clamped into
[0, max_scroll], and in pinned mode it equals max_scroll. -/
theorem scroll_recompute_clamped (app : App) (visibleHeight : Nat) :
    (updateScroll app visibleHeight).scroll ≤ (updateScroll app visibleHeight).max_scroll
    ∧ (app.scroll_to_bottom = true →
        (updateScroll app visibleHeight).scroll = (updateScroll app visibleHeight).max_scroll) := by
  unfold updateScroll
  by_cases hb : app.scroll_to_bottom = true
  · simp [hb]
  · simp [hb, min_le_right]

/-- Witness for C5 at a concrete pinned state. -/
theorem scroll_recompute_clamped_witness :
    pinnedApp.scroll_to_bottom = true
    ∧ (updateScroll pinnedApp 2).scroll = (updateScroll pinnedApp 2).max_scroll :=
  ⟨rfl, (scroll_recompute_clamped pinnedApp 2).2 rfl⟩

/-- Helper: the scroll estimate loop as a sum over the transcript. -/
theorem foldl_estimate (l : List Message) (acc : Nat) :
    l.foldl (fun acc m => acc + 3 + (rustLinesCount m.content + 2) + 3) acc
      = acc + (l.map fun m => rustLinesCount m.content + 8).sum := by
  induction l generalizing acc with
  | nil => simp
  | cons m t ih => simp [List.foldl_cons, ih]; omega

/-- C7: max_scroll is the sum over all turns of the per-turn overhead 8
plus the line count of the turn, saturating-minus the viewport height; it
depends only on the transcript and the viewport height. -/
theorem max_scroll_formula (app : App) (visibleHeight : Nat) :
    (updateScroll app visibleHeight).max_scroll
      = (app.messages.map fun m => rustLinesCount m.content + 8).sum - visibleHeight := by
  unfold updateScroll
  by_cases hb : app.scroll_to_bottom = true <;> simp [hb, foldl_estimate]

/-- Counterexample to C6: a down-scroll that lands strictly below
max_scroll leaves the view pinned (it never clears the flag), and an
up-scroll that lands exactly on max_scroll unpins rather than re-pins. -/
theorem manual_scroll_unpin_counterexample :
    ((scrollDown pinnedLowApp 3).scroll = 3
      ∧ (scrollDown pinnedLowApp 3).max_scroll = 10
      ∧ (scrollDown pinnedLowApp 3).scroll_to_bottom = true)
    ∧ ((scrollUp zeroMaxApp 3).scroll = 0
      ∧ (scrollUp zeroMaxApp 3).max_scroll = 0
      ∧ (scrollUp zeroMaxApp 3).scroll_to_bottom = false) := by
  decide

/-- C6 as amended: an up-scroll always clears the pinned flag whatever
offset it lands on, while a down-scroll keeps the pinned flag unchanged
unless the clamped offset reaches max_scroll, in which case it pins. -/
theorem scroll_pinning_behavior (app : App) (amount : Nat) :
    (scrollUp app amount).scroll_to_bottom = false
    ∧ (scrollUp app amount).scroll = app.scroll - amount
    ∧ (scrollDown app amount).scroll = min (app.scroll + amount) app.max_scroll
    ∧ (scrollDown app amount).scroll_to_bottom
        = (if app.max_scroll ≤ app.scroll + amount then true else app.scroll_to_bottom) := by
  refine ⟨rfl, rfl, ?_, ?_⟩
  · unfold scrollDown
    by_cases h : app.max_scroll ≤ min (app.scroll + amount) app.max_scroll <;> simp [h]
  · unfold scrollDown
    by_cases h : app.max_scroll ≤ app.scroll + amount
    · rw [if_pos (le_min h le_rfl)]
      simp [h]
    · have h2 : ¬ app.max_scroll ≤ min (app.scroll + amount) app.max_scroll := by
        intro hc
        exact h (le_trans hc (min_le_left _ _))
      rw [if_neg h2]
      simp [h]

/-- C4 failing input: from the empty buffer, typing the two-byte character
é and then a: the handler advances the cursor by 1 instead of the UTF-8
length, so the second String::insert lands inside the é and panics (none
models the panic), where the claim promises every editing operation is
well-defined. -/
theorem multibyte_insert_panics :
    applyEdits initialEditState [EditOp.insertChar 'é', EditOp.insertChar 'a'] = none := by
  decide

/-- C8: a wrapped display line is classified stage-direction exactly when
it starts with an opening bracket and ends with a closing bracket,
otherwise emphasis exactly when it starts and ends with an asterisk,
otherwise plain; the three sample lines classify as stated; and the
renderer applies the classification to each wrapped line (an output of the
wrap pass over a source line), not to the pre-wrap source line. -/
theorem wrapped_line_classification :
    (∀ w, classifyLine w = LineClass.stageDirection
        ↔ (strStartsWith w "[" && strEndsWith w "]") = true)
    ∧ (∀ w, ¬((strStartsWith w "[" && strEndsWith w "]") = true) →
        (classifyLine w = LineClass.emphasis
          ↔ (strStartsWith w "*" && strEndsWith w "*") = true))
    ∧ (∀ w, ¬((strStartsWith w "[" && strEndsWith w "]") = true) →
        ¬((strStartsWith w "*" && strEndsWith w "*") = true) →
        classifyLine w = LineClass.plain)
    ∧ classifyLine "[ The void hums ]" = LineClass.stageDirection
    ∧ classifyLine "*softly*" = LineClass.emphasis
    ∧ classifyLine "plain text" = LineClass.plain
    ∧ (∀ (wrapF : String → List String) (content : String) (w : String) (c : LineClass),
        DisplayLine.text w c ∈ renderContent wrapF content →
        c = classifyLine w
        ∧ ∃ para, para ∈ content.splitOn "\n\n"
            ∧ ∃ line, line ∈ rustLines para ∧ w ∈ wrapF line) := by
  refine ⟨?_, ?_, ?_, by decide, by decide, by decide, ?_⟩
  · intro w
    by_cases h1 : (strStartsWith w "[" && strEndsWith w "]") = true
    · simp [classifyLine, h1]
    · by_cases h2 : (strStartsWith w "*" && strEndsWith w "*") = true <;>
        simp [classifyLine, h1, h2]
  · intro w h1
    by_cases h2 : (strStartsWith w "*" && strEndsWith w "*") = true <;>
      simp [classifyLine, h1, h2]
  · intro w h1 h2
    simp [classifyLine, h1, h2]
  · intro wrapF content w c hmem
    simp only [renderContent, List.mem_flatMap, List.mem_append, List.mem_singleton] at hmem
    obtain ⟨para, hpara, hin⟩ := hmem
    rcases hin with hin | hblank
    · obtain ⟨line, hline, hin2⟩ := hin
      by_cases hl : line = ""
      · rw [if_pos hl] at hin2
        simp at hin2
      · rw [if_neg hl] at hin2
        simp only [List.mem_map] at hin2
        obtain ⟨w2, hw2, heq⟩ := hin2
        cases heq
        exact ⟨rfl, para, hpara, line, hline, hw2⟩
    · cases hblank

/-- Witness for C8: the emphasis characterization applied to the concrete
wrapped line. -/
theorem wrapped_line_classification_witness :
    ¬((strStartsWith "*softly*" "[" && strEndsWith "*softly*" "]") = true)
    ∧ (classifyLine "*softly*" = LineClass.emphasis
        ↔ (strStartsWith "*softly*" "*" && strEndsWith "*softly*" "*") = true) :=
  ⟨by decide, wrapped_line_classification.2.1 "*softly*" (by decide)⟩
